import Mathlib

/-!
Shallow embedding of the URL security-check orchestrator of
securityCheck.py: URL validation, the testssl.sh output loop of
check_url_security, the three shared outcome tables, the worker loop
thread_work, the sampling helper sample_urls, and the thread-count
computation of the main guard.  External effects (the validators
library, the spawned scan process, the random generator) enter as
explicit oracle parameters, documented at each definition.
-/

namespace SecCheck

/-- Strings are modelled as lists of characters. -/
abbrev Str := List Char

/-- Tests whether the first list is an initial segment of the second. -/
def leadsWith : Str → Str → Bool
  | [], _ => true
  | _ :: _, [] => false
  | a :: as, b :: bs => a == b && leadsWith as bs

/-- Python substring membership, the test "needle in hay". -/
def listContains (needle : Str) : Str → Bool
  | [] => needle.isEmpty
  | c :: t => leadsWith needle (c :: t) || listContains needle t

/-- Splits off the part of a string before the first occurrence of a
separator, returning it with the remainder after the separator, or
none when the separator does not occur. -/
def splitFirst (sep : Str) : Str → Option (Str × Str)
  | [] => none
  | c :: t =>
    if leadsWith sep (c :: t) then some ([], (c :: t).drop sep.length)
    else
      match splitFirst sep t with
      | none => none
      | some (pre, post) => some (c :: pre, post)

/-- Fuelled worker for pySplit; fuel bounds the number of separator
occurrences, and length of the input plus one always suffices. -/
def pySplitFuel (sep : Str) : Nat → Str → List Str
  | 0, s => [s]
  | fuel + 1, s =>
    match splitFirst sep s with
    | none => [s]
    | some (pre, post) => pre :: pySplitFuel sep fuel post

/-- Python str.split with a non-empty separator string. -/
def pySplit (sep s : Str) : List Str := pySplitFuel sep (s.length + 1) s

/-- Python s.split(sep) indexed at -1: the part after the last
occurrence of the separator, or the whole string when absent. -/
def splitTail (sep s : Str) : Str := (pySplit sep s).getLastD []

/-- Python whitespace characters removed by str.strip(). -/
def isPySpace (c : Char) : Bool :=
  c == ' ' || c == '\t' || c == '\n' || c == '\r' || c == '\x0b' || c == '\x0c'

/-- Python str.strip(): whitespace removed from both ends. -/
def pyStrip (s : Str) : Str :=
  ((s.dropWhile isPySpace).reverse.dropWhile isPySpace).reverse

/-- Parameter byte of a CSI escape sequence, the character class 0-? of
the pattern at line 227 of securityCheck.py. -/
def isCSIParam (c : Char) : Bool := 0x30 ≤ c.toNat && c.toNat ≤ 0x3F

/-- Intermediate byte of a CSI escape sequence, the class from space
to the slash character. -/
def isCSIInter (c : Char) : Bool := 0x20 ≤ c.toNat && c.toNat ≤ 0x2F

/-- Final byte of a CSI escape sequence, the class @-~. -/
def isCSIFinal (c : Char) : Bool := 0x40 ≤ c.toNat && c.toNat ≤ 0x7E

/-- Matches the regex ESC [ param* intermediate* final at the head of
the string, returning the remainder after the match.  The three
character classes are pairwise disjoint, so greedy matching without
backtracking is exact for this regex. -/
def matchCSI : Str → Option Str
  | '\x1b' :: '[' :: rest =>
    match (rest.dropWhile isCSIParam).dropWhile isCSIInter with
    | c :: r => if isCSIFinal c then some r else none
    | [] => none
  | _ => none

/-- Fuelled worker for stripCSI; every recursive call shortens the
string, so fuel equal to the length suffices. -/
def stripCSIFuel : Nat → Str → Str
  | 0, s => s
  | _ + 1, [] => []
  | fuel + 1, c :: t =>
    match matchCSI (c :: t) with
    | some rest => stripCSIFuel fuel rest
    | none => c :: stripCSIFuel fuel t

/-- The substitution ansicode_pattern.sub applied to a line: removes
every CSI escape sequence, scanning left to right. -/
def stripCSI (s : Str) : Str := stripCSIFuel s.length s

/-- Parameter byte of an SGR colour sequence, the class 0-9 or
semicolon of the pattern at lines 246, 249, 252. -/
def isSGRParam (c : Char) : Bool := (0x30 ≤ c.toNat && c.toNat ≤ 0x39) || c == ';'

/-- Matches the regex ESC [ param* m at the head of the string. -/
def matchSGR : Str → Option Str
  | '\x1b' :: '[' :: rest =>
    match rest.dropWhile isSGRParam with
    | 'm' :: r => some r
    | _ => none
  | _ => none

/-- Fuelled worker for stripSGR. -/
def stripSGRFuel : Nat → Str → Str
  | 0, s => s
  | _ + 1, [] => []
  | fuel + 1, c :: t =>
    match matchSGR (c :: t) with
    | some rest => stripSGRFuel fuel rest
    | none => c :: stripSGRFuel fuel t

/-- The substitution removing SGR colour sequences from an extracted
grade field. -/
def stripSGR (s : Str) : Str := stripSGRFuel s.length s

/-- The marker word of a scan-start line. -/
def startStr : Str := "Start".toList

/-- The Overall Grade marker. -/
def ogStr : Str := "Overall Grade".toList

/-- The Grade cap reasons marker. -/
def gcrStr : Str := "Grade cap reasons".toList

/-- The Grade warning marker. -/
def gwStr : Str := "Grade warning".toList

/-- The status value recorded with an invalid URL. -/
def statusInvalid : Str := "Invalid URL".toList

/-- The status value recorded with a successful scan. -/
def statusSuccess : Str := "Success".toList

/-- The separator of url.split at lines 223 and 234. -/
def dslash : Str := "//".toList

/-- The .log filename suffix. -/
def dotLog : Str := ".log".toList

/-- The directory Logfiles/Logfiles_ followed by the run date,
mirroring line 63 with the date as a parameter. -/
def logfile_directory (today : Str) : Str :=
  "Logfiles/Logfiles_".toList ++ today

/-- The three shared outcome tables, rows in insertion order.  The
failed row mirrors the pandas scalar broadcast at line 258, which
writes the url into both columns; the invalid and successful rows
mirror lines 162 and 262. -/
structure Buckets where
  invalid_url : List (Str × Str)
  security_check_failed : List (Str × Str)
  security_check_successful : List (Str × Str × Str × Str × Str)
deriving DecidableEq, Repr

/-- The empty tables created at lines 66 to 68. -/
def emptyBuckets : Buckets := ⟨[], [], []⟩

/-- Outcome count over all three tables. -/
def countBuckets (b : Buckets) : Nat :=
  b.invalid_url.length + b.security_check_failed.length +
    b.security_check_successful.length

/-- Environment of one scan process: whether subprocess.Popen succeeds
rather than raising, the lines delivered on the combined
stdout and stderr stream, and the exit status that process.wait
returns. -/
structure ScanEnv where
  launchOk : Bool
  outLines : List Str
  exitCode : Int
deriving DecidableEq, Repr

/-- Local parse state of the output loop of check_url_security:
the check_started flag, the three extracted grade fields, and the
lines written to the log file so far. -/
structure ParseState where
  check_started : Bool
  overall_grade : Str
  grade_cap_reasons : Str
  grade_warning : Str
  log : List Str
deriving DecidableEq, Repr

/-- Initial parse state, lines 208 to 212. -/
def initState : ParseState := ⟨false, [], [], [], []⟩

/-- One iteration of the output loop, lines 225 to 252: strip CSI
escapes into line_value, write line_value to the log, test the raw
line for the start marker together with the authority (returning early
when the scan already started), then run the extraction chain, in
which only the Overall Grade test reads line_value while the other two
markers and all three extractions read the raw line, each extracted
field being whitespace-stripped and then SGR-colour-stripped.  The
returned flag is true when the duplicate-start early return fired. -/
def scanStep (auth : Str) (st : ParseState) (line : Str) : ParseState × Bool :=
  let lv := stripCSI line
  let st1 := { st with log := st.log ++ [lv] }
  let isStart := listContains startStr line && listContains auth line
  if isStart && st1.check_started then (st1, true)
  else
    let st2 := if isStart then { st1 with check_started := true } else st1
    let st3 :=
      if listContains ogStr lv then
        { st2 with overall_grade := stripSGR (pyStrip (splitTail ogStr line)) }
      else if listContains gcrStr line then
        { st2 with grade_cap_reasons := stripSGR (pyStrip (splitTail gcrStr line)) }
      else if listContains gwStr line then
        { st2 with grade_warning := stripSGR (pyStrip (splitTail gwStr line)) }
      else st2
    (st3, false)

/-- The whole output loop over the stream; stops early with flag true
when a duplicate start marker fires the early return at line 239. -/
def scanLoop (auth : Str) : List Str → ParseState → ParseState × Bool
  | [], st => (st, false)
  | l :: rest, st =>
    match scanStep auth st l with
    | (st1, true) => (st1, true)
    | (st1, false) => scanLoop auth rest st1

/-- Events on the per-URL log file, used to state how the scoped
with-open at line 223 acquires and releases it. -/
inductive FileEvent
  | opened (name : Str)
  | wrote (line : Str)
  | closed
deriving DecidableEq, Repr

/-- Recognises an opened event. -/
def isOpenEv : FileEvent → Bool
  | FileEvent.opened _ => true
  | _ => false

/-- Result of one call of check_url_security: ret is none when an
uncaught exception escapes (index error on a url without a double
slash, or subprocess.Popen raising), some none when the function
returns None through the duplicate-start early return, and some of a
boolean for the return at line 260 or 264; buckets is the shared
table state after the call, logName the per-URL log path, and events
the open, write and close history of that file. -/
structure CheckResult where
  ret : Option (Option Bool)
  buckets : Buckets
  logName : Str
  events : List FileEvent
deriving DecidableEq, Repr

/-- The function check_url_security, lines 190 to 264, over a scan
environment.  The authority is url.split at the double slash indexed
at 1, raising when absent; the log file is opened for the scan and
closed by the with block on every exit path, with the redundant
explicit close of line 255 on the normal path; on a duplicate start
marker the function returns None without touching any bucket; else
exit status zero appends the successful row and any other status
appends the failed row. -/
def check_url_security (d url : Str) (env : ScanEnv) (b : Buckets) : CheckResult :=
  match (pySplit dslash url)[1]? with
  | none => ⟨none, b, [], []⟩
  | some auth =>
    let name := logfile_directory d ++ ('/' :: auth) ++ dotLog
    if env.launchOk = false then
      ⟨none, b, name, [FileEvent.opened name, FileEvent.closed]⟩
    else
      match scanLoop auth env.outLines initState with
      | (st, true) =>
        ⟨some none, b, name,
          (FileEvent.opened name :: st.log.map FileEvent.wrote) ++ [FileEvent.closed]⟩
      | (st, false) =>
        if env.exitCode ≠ 0 then
          ⟨some (some false),
            { b with security_check_failed := b.security_check_failed ++ [(url, url)] },
            name,
            ((FileEvent.opened name :: st.log.map FileEvent.wrote) ++ [FileEvent.closed])
              ++ [FileEvent.closed]⟩
        else
          ⟨some (some true),
            { b with security_check_successful :=
                b.security_check_successful ++
                  [(url, statusSuccess, st.overall_grade, st.grade_cap_reasons,
                    st.grade_warning)] },
            name,
            ((FileEvent.opened name :: st.log.map FileEvent.wrote) ++ [FileEvent.closed])
              ++ [FileEvent.closed]⟩

/-- The function check_url_validity, lines 144 to 163; validOk is the
oracle for the test validators.url of the url being True.  On an
invalid url the invalid row is appended and False returned. -/
def check_url_validity (url : Str) (validOk : Bool) (b : Buckets) : Bool × Buckets :=
  if validOk then (true, b)
  else (false, { b with invalid_url := b.invalid_url ++ [(url, statusInvalid)] })

/-- One url of a worker lane together with its external oracles: the
validators verdict and the scan-process environment. -/
structure UrlCase where
  url : Str
  validOk : Bool
  env : ScanEnv
deriving DecidableEq, Repr

/-- The function thread_work, lines 403 to 414: for each url, validate
and continue on failure, else scan and continue whatever the returned
status is.  The boolean of the result is true when an uncaught
exception from check_url_security killed the lane, in which case the
remaining urls are never processed. -/
def thread_work (d : Str) : List UrlCase → Buckets → Buckets × Bool
  | [], b => (b, false)
  | c :: rest, b =>
    let vb := check_url_validity c.url c.validOk b
    if vb.1 = false then thread_work d rest vb.2
    else
      let r := check_url_security d c.url c.env vb.2
      match r.ret with
      | none => (r.buckets, true)
      | some _ => thread_work d rest r.buckets

/-- Holds when the scan of the case runs to completion: the url has an
authority part, the process launches, and the output loop is not cut
short by the duplicate-start early return. -/
def scanCompleted (c : UrlCase) : Bool :=
  match (pySplit dslash c.url)[1]? with
  | none => false
  | some auth => c.env.launchOk && !(scanLoop auth c.env.outLines initState).2

/-- Authority part of a url, with an empty default for totality. -/
def authD (url : Str) : Str := ((pySplit dslash url)[1]?).getD []

/-- Overall grade the output loop extracts for a case. -/
def gradeOf (c : UrlCase) : Str :=
  (scanLoop (authD c.url) c.env.outLines initState).1.overall_grade

/-- Grade cap reasons the output loop extracts for a case. -/
def capOf (c : UrlCase) : Str :=
  (scanLoop (authD c.url) c.env.outLines initState).1.grade_cap_reasons

/-- Grade warning the output loop extracts for a case. -/
def warnOf (c : UrlCase) : Str :=
  (scanLoop (authD c.url) c.env.outLines initState).1.grade_warning

/-- Case recorded in the invalid table. -/
def isInvalidCase (c : UrlCase) : Bool := !c.validOk

/-- Case recorded in the failed table. -/
def isFailedCase (c : UrlCase) : Bool := c.validOk && !(c.env.exitCode == 0)

/-- Case recorded in the successful table. -/
def isSuccessCase (c : UrlCase) : Bool := c.validOk && (c.env.exitCode == 0)

/-- The default worker count of the main guard, lines 447 to 450:
available execution units minus one, floored at one. -/
def defaultThreads (cpu_count : Nat) : Nat :=
  if cpu_count > 1 then cpu_count - 1 else cpu_count

/-- The worker count actually used by the main guard: the computed
default at lines 447 to 450 is overwritten by the assignment of the
constant one at line 454 before the url list is split. -/
def mainThreads (cpu_count : Nat) : Nat :=
  let threads := defaultThreads cpu_count
  let threads := 1
  threads

/-- Contract of random.sample of the Python standard library: raises
ValueError, modelled as none, exactly when the requested size exceeds
the population, and otherwise returns the elements at k distinct
indices chosen by the generator, supplied here as the oracle r. -/
def randomSample {α : Type} [Inhabited α] (population : List α) (k : Nat)
    (r : List Nat) : Option (List α) :=
  if k ≤ population.length then
    some ((r.take k).map fun i => population.getD i default)
  else none

/-- The function sample_urls, lines 126 to 139: sample size is the
larger of one and a tenth of the length, then random.sample. -/
def sample_urls {α : Type} [Inhabited α] (urls : List α) (r : List Nat) :
    Option (List α) :=
  let sample_size := max 1 (urls.length / 10)
  randomSample urls sample_size r

/-- The main-guard choice at lines 439 and 440: when checkAll is
false the url list is replaced by the sample. -/
def mainUrls {α : Type} [Inhabited α] (check_all : Bool) (urls : List α)
    (r : List Nat) : Option (List α) :=
  if check_all = false then sample_urls urls r else some urls

/-- One lane of the interleaving model of the unsynchronised append
df.loc at the length of df: saved holds a table length already read
but not yet written at, pending the outcome rows still to append. -/
structure ConcLane where
  saved : Option Nat
  pending : List Nat
deriving DecidableEq, Repr

/-- Shared table plus the lanes of the interleaving model. -/
structure ConcState where
  table : List Nat
  lanes : List ConcLane
deriving DecidableEq, Repr

/-- The pandas row write df.loc at index k: overwrite when k is an
existing row index, append when k equals the length. -/
def locSet (t : List Nat) (k r : Nat) : List Nat :=
  if k < t.length then t.set k r else t ++ [r]

/-- One atomic action of lane i: a lane with no saved length reads the
current table length, a lane with a saved length performs the row
write there and moves to its next outcome. -/
def laneStep (s : ConcState) (i : Nat) : ConcState :=
  match s.lanes[i]? with
  | none => s
  | some lane =>
    match lane.saved, lane.pending with
    | none, [] => s
    | none, _ :: _ =>
      { s with lanes := s.lanes.set i { lane with saved := some s.table.length } }
    | some k, row :: rest =>
      { table := locSet s.table k row,
        lanes := s.lanes.set i { saved := none, pending := rest } }
    | some _, [] => s

/-- Runs a schedule of lane indices over the interleaving model. -/
def concRun (sched : List Nat) (s : ConcState) : ConcState :=
  sched.foldl laneStep s

/-- A single lane appending its outcomes back to back, each length
read immediately followed by its row write: the serialized append
discipline, and the behaviour of the shipped single-lane run. -/
def appendAll (t : List Nat) (rows : List Nat) : List Nat :=
  rows.foldl (fun acc r => locSet acc acc.length r) t

/-- Following the spec's words: the authority component of a URL, the
substring between the first double slash and the next slash, question
mark or hash sign.  Used only to compare the log-file naming of the
code against the spec's naming claim. -/
def specAuthority (url : Str) : Str :=
  match (pySplit dslash url)[1]? with
  | none => []
  | some rest => rest.takeWhile fun c => !(c == '/' || c == '?' || c == '#')

/-- C7: the claim says the number of worker lanes launched by default
equals the available execution units minus one, floored at one; the
code computes exactly that value at lines 447 to 450 but then
overwrites it with the constant one at line 454, so on a machine with
four units one lane is used where the claim and the shadowed
computation say three. -/
theorem C7_thread_count_eval : mainThreads 4 = 1 ∧ defaultThreads 4 = 3 := by
  constructor <;> rfl

/-- C10: sample_urls is total exactly on non-empty inputs; on the
empty list the sample size is the maximum of one and zero, and
random.sample raises, modelled as none, rather than returning an
empty sample. -/
theorem C10_sample_empty {α : Type} [Inhabited α] (urls : List α) (r : List Nat) :
    sample_urls urls r = none ↔ urls = [] := by
  cases urls with
  | nil => simp [sample_urls, randomSample]
  | cons a t =>
    have h1 : max 1 ((a :: t).length / 10) ≤ (a :: t).length :=
      max_le (by simp) (Nat.div_le_self _ _)
    simp [sample_urls, randomSample, h1]
    exact Nat.div_le_self _ _

/-- C8: with checkAll false the run samples the urls; for a duplicate
free input and a well-formed draw of the random generator, the sample
has size the maximum of one and a tenth of the input length, every
sampled element comes from the input, and no element appears twice. -/
theorem C8_sampling {α : Type} [Inhabited α] (urls : List α) (r : List Nat)
    (hne : urls ≠ []) (hnd : urls.Nodup)
    (hrlen : r.length = max 1 (urls.length / 10))
    (hrnd : r.Nodup) (hrbd : ∀ i ∈ r, i < urls.length) :
    (mainUrls false urls r).isSome = true ∧
    mainUrls false urls r = some (r.map fun i => urls.getD i default) ∧
    (r.map fun i => urls.getD i default).length = max 1 (urls.length / 10) ∧
    (∀ x ∈ r.map fun i => urls.getD i default, x ∈ urls) ∧
    (r.map fun i => urls.getD i default).Nodup := by
  have hlen : 0 < urls.length := List.length_pos.mpr hne
  have hk : max 1 (urls.length / 10) ≤ urls.length :=
    max_le hlen (Nat.div_le_self _ _)
  have heq : mainUrls false urls r = some (r.map fun i => urls.getD i default) := by
    rw [mainUrls, if_pos rfl, sample_urls]
    rw [randomSample, if_pos hk, ← hrlen, List.take_length]
  have hgd : ∀ i ∈ r, urls.getD i default ∈ urls := by
    intro i hi
    have hb := hrbd i hi
    rw [List.getD_eq_getElem?_getD, List.getElem?_eq_getElem hb]
    exact List.getElem_mem hb
  refine ⟨by rw [heq]; rfl, heq, by rw [List.length_map, hrlen], ?_, ?_⟩
  · intro x hx
    rcases List.mem_map.mp hx with ⟨i, hi, rfl⟩
    exact hgd i hi
  · refine List.Nodup.map_on ?_ hrnd
    intro i hi j hj hij
    have hbi := hrbd i hi
    have hbj := hrbd j hj
    rw [List.getD_eq_getElem?_getD, List.getElem?_eq_getElem hbi,
      List.getD_eq_getElem?_getD, List.getElem?_eq_getElem hbj] at hij
    exact (hnd.getElem_inj_iff).mp (by simpa using hij)

/-- C2, counterexample: the claim says bucket appends are serialized
so no outcome is lost under concurrent lanes and counts match the
single-lane run; in the interleaving model of the unsynchronised
append, the schedule in which both lanes read the table length before
either writes loses one of the two outcomes, while the serialized
schedule keeps both. -/
theorem C2_lost_update_counterexample :
    (concRun [0, 1, 0, 1]
      ⟨[], [⟨none, [10]⟩, ⟨none, [20]⟩]⟩).table.length = 1 ∧
    (concRun [0, 0, 1, 1]
      ⟨[], [⟨none, [10]⟩, ⟨none, [20]⟩]⟩).table.length = 2 := by
  constructor <;> rfl

/-- C2, amended: the appends are unsynchronised read-length-then-write
operations on the shared tables, and an interleaving of two lanes can
lose an outcome; outcome counts are preserved exactly by
non-interleaved appends, as in the shipped configuration where the
dispatcher hardcodes a single lane: a lane appending its outcomes back
to back adds exactly one row per outcome. -/
theorem C2_serialized_appends_amended (t rows : List Nat) :
    (appendAll t rows).length = t.length + rows.length := by
  induction rows generalizing t with
  | nil => simp [appendAll]
  | cons r rs ih =>
    have hstep : appendAll t (r :: rs) = appendAll (t ++ [r]) rs := by
      rw [appendAll, List.foldl_cons, locSet, if_neg (Nat.lt_irrefl _)]
      rfl
    rw [hstep, ih]
    simp
    omega

/-- C8, witness: a run over one hundred distinct urls with a valid
ten-element draw of the generator produces a sample. -/
theorem C8_sampling_witness :
    (mainUrls false (List.range 100) (List.range 10)).isSome = true :=
  (C8_sampling (List.range 100) (List.range 10) (by decide) (by decide)
    (by decide) (by decide) (by decide)).1

/-- C4: a completed scan process with exit status zero yields the
successful row carrying exactly the extracted grade fields, possibly
all empty, and any nonzero exit status yields the failed row with no
grade fields, whatever was parsed before exit; the other tables are
untouched in both cases. -/
theorem C4_exit_code_mapping (d url auth : Str) (env : ScanEnv) (b : Buckets)
    (hA : (pySplit dslash url)[1]? = some auth)
    (hL : env.launchOk = true)
    (hE : (scanLoop auth env.outLines initState).2 = false) :
    (env.exitCode = 0 →
      (check_url_security d url env b).ret = some (some true) ∧
      (check_url_security d url env b).buckets.security_check_successful =
        b.security_check_successful ++
          [(url, statusSuccess,
            (scanLoop auth env.outLines initState).1.overall_grade,
            (scanLoop auth env.outLines initState).1.grade_cap_reasons,
            (scanLoop auth env.outLines initState).1.grade_warning)] ∧
      (check_url_security d url env b).buckets.security_check_failed =
        b.security_check_failed ∧
      (check_url_security d url env b).buckets.invalid_url = b.invalid_url) ∧
    (env.exitCode ≠ 0 →
      (check_url_security d url env b).ret = some (some false) ∧
      (check_url_security d url env b).buckets.security_check_failed =
        b.security_check_failed ++ [(url, url)] ∧
      (check_url_security d url env b).buckets.security_check_successful =
        b.security_check_successful ∧
      (check_url_security d url env b).buckets.invalid_url = b.invalid_url) := by
  cases hS : scanLoop auth env.outLines initState with
  | mk st fl =>
    rw [hS] at hE
    simp only [Prod.snd] at hE
    subst hE
    constructor
    · intro he
      simp [check_url_security, hA, hL, hS, he]
    · intro he
      simp [check_url_security, hA, hL, hS, he]

/-- C4, witness: a scan that exits zero having printed no grade line
at all yields the successful row with three empty grade fields, and a
scan that exits one yields the failed row although a grade was
parsed before exit. -/
theorem C4_exit_code_mapping_witness :
    (check_url_security "2024-03-01".toList "https://a4.example".toList
      ⟨true, ["hello".toList], 0⟩ emptyBuckets).buckets.security_check_successful =
      [("https://a4.example".toList, statusSuccess, [], [], [])] ∧
    (check_url_security "2024-03-01".toList "https://a4.example".toList
      ⟨true, ["Overall Grade A".toList], 1⟩ emptyBuckets).buckets.security_check_failed =
      [("https://a4.example".toList, "https://a4.example".toList)] := by
  constructor
  · exact (((C4_exit_code_mapping "2024-03-01".toList "https://a4.example".toList
      "a4.example".toList ⟨true, ["hello".toList], 0⟩ emptyBuckets
      (by decide) rfl (by decide)).1 rfl).2.1).trans (by decide)
  · exact (((C4_exit_code_mapping "2024-03-01".toList "https://a4.example".toList
      "a4.example".toList ⟨true, ["Overall Grade A".toList], 1⟩ emptyBuckets
      (by decide) rfl (by decide)).2 (by decide)).2.1).trans (by decide)

/-- C3, counterexample: the claim says a duplicate scan-start marker
leads to the url being recorded as a FailedScan; in the code the
early return at line 239 records the url in no table at all, although
the lane does go on with its next url. -/
theorem C3_duplicate_start_counterexample :
    (thread_work "2024-03-01".toList
      [⟨"https://x3.example".toList, true,
        ⟨true, [" Start x3.example one".toList, " Start x3.example two".toList], 0⟩⟩,
       ⟨"https://y3.example".toList, true, ⟨true, [], 0⟩⟩]
      emptyBuckets).1.security_check_failed = [] ∧
    (thread_work "2024-03-01".toList
      [⟨"https://x3.example".toList, true,
        ⟨true, [" Start x3.example one".toList, " Start x3.example two".toList], 0⟩⟩,
       ⟨"https://y3.example".toList, true, ⟨true, [], 0⟩⟩]
      emptyBuckets).1.security_check_successful.map Prod.fst =
      ["https://y3.example".toList] ∧
    (thread_work "2024-03-01".toList
      [⟨"https://x3.example".toList, true,
        ⟨true, [" Start x3.example one".toList, " Start x3.example two".toList], 0⟩⟩,
       ⟨"https://y3.example".toList, true, ⟨true, [], 0⟩⟩]
      emptyBuckets).2 = false := by
  refine ⟨by decide, by decide, by decide⟩

/-- C3, amended: on a second scan-start marker for the same url the
output loop is terminated early, the function returns None, no table
receives the url, and the lane continues with its next url. -/
theorem C3_duplicate_start_amended (d url auth : Str) (env : ScanEnv) (b : Buckets)
    (rest : List UrlCase)
    (hA : (pySplit dslash url)[1]? = some auth)
    (hL : env.launchOk = true)
    (hdup : (scanLoop auth env.outLines initState).2 = true) :
    (check_url_security d url env b).ret = some none ∧
    (check_url_security d url env b).buckets = b ∧
    thread_work d (⟨url, true, env⟩ :: rest) b = thread_work d rest b := by
  cases hS : scanLoop auth env.outLines initState with
  | mk st fl =>
    rw [hS] at hdup
    simp only [Prod.snd] at hdup
    subst hdup
    refine ⟨?_, ?_, ?_⟩
    · simp [check_url_security, hA, hL, hS]
    · simp [check_url_security, hA, hL, hS]
    · simp [thread_work, check_url_validity, check_url_security, hA, hL, hS]

/-- C3, witness: a concrete duplicate-start stream leaves the tables
untouched. -/
theorem C3_duplicate_start_witness :
    (check_url_security "2024-03-01".toList "https://x3.example".toList
      ⟨true, [" Start x3.example one".toList, " Start x3.example two".toList], 0⟩
      emptyBuckets).buckets = emptyBuckets :=
  (C3_duplicate_start_amended "2024-03-01".toList "https://x3.example".toList
    "x3.example".toList
    ⟨true, [" Start x3.example one".toList, " Start x3.example two".toList], 0⟩
    emptyBuckets [] (by decide) rfl (by decide)).2.1

/-- C6, counterexample: the claim says a scan-process launch failure
is captured and recorded as a FailedScan and the lane continues; in
the code the exception from subprocess.Popen is uncaught, so nothing
is recorded, the lane dies, and its remaining urls are skipped. -/
theorem C6_launch_failure_counterexample :
    thread_work "2024-03-01".toList
      [⟨"https://a6.example".toList, true, ⟨false, [], 0⟩⟩,
       ⟨"https://b6.example".toList, true, ⟨true, [], 0⟩⟩]
      emptyBuckets = (emptyBuckets, true) := by
  decide

/-- C6, amended: a launch failure escapes check_url_security as an
uncaught exception: no outcome is recorded for the url, the worker
lane terminates, and the urls remaining in its shard are never
processed. -/
theorem C6_launch_failure_amended (d url auth : Str) (env : ScanEnv) (b : Buckets)
    (rest : List UrlCase)
    (hA : (pySplit dslash url)[1]? = some auth)
    (hL : env.launchOk = false) :
    (check_url_security d url env b).ret = none ∧
    (check_url_security d url env b).buckets = b ∧
    thread_work d (⟨url, true, env⟩ :: rest) b = (b, true) := by
  refine ⟨?_, ?_, ?_⟩ <;>
    simp [check_url_security, hA, hL, thread_work, check_url_validity]

/-- C6, witness: a concrete failed launch kills the lane with the
tables unchanged. -/
theorem C6_launch_failure_witness :
    thread_work "2024-03-01".toList
      [⟨"https://c6.example".toList, true, ⟨false, [], 0⟩⟩] emptyBuckets =
      (emptyBuckets, true) :=
  (C6_launch_failure_amended "2024-03-01".toList "https://c6.example".toList
    "c6.example".toList ⟨false, [], 0⟩ emptyBuckets [] (by decide) rfl).2.2

/-- Filtering log-write events for open events yields nothing. -/
lemma filter_isOpenEv_map_wrote (L : List Str) :
    (L.map FileEvent.wrote).filter isOpenEv = [] := by
  induction L with
  | nil => rfl
  | cons a t ih => simp [List.filter_cons, isOpenEv, ih]

/-- Last event of a history ending in one close. -/
lemma getLast?_cons_append_closed (x : FileEvent) (L : List FileEvent) :
    (x :: (L ++ [FileEvent.closed])).getLast? = some FileEvent.closed := by
  rw [← List.cons_append, List.getLast?_concat]

/-- Last event of a history ending in two closes. -/
lemma getLast?_cons_append_closed2 (x : FileEvent) (L : List FileEvent) :
    (x :: (L ++ [FileEvent.closed, FileEvent.closed])).getLast? =
      some FileEvent.closed := by
  have h : x :: (L ++ [FileEvent.closed, FileEvent.closed]) =
      (x :: (L ++ [FileEvent.closed])) ++ [FileEvent.closed] := by simp
  rw [h, List.getLast?_concat]

/-- C9, counterexample: the claim says the log-file name is derived
from the url's authority component; the code derives it from
everything after the first double slash, so two urls with the same
authority but different paths get different log names. -/
theorem C9_logname_counterexample :
    specAuthority "https://h.de".toList = specAuthority "https://h.de/a".toList ∧
    (check_url_security "2024-03-01".toList "https://h.de".toList
      ⟨true, [], 0⟩ emptyBuckets).logName ≠
      (check_url_security "2024-03-01".toList "https://h.de/a".toList
        ⟨true, [], 0⟩ emptyBuckets).logName := by
  refine ⟨by decide, by decide⟩

/-- C9, amended: for every scanned url the log file is the date-
stamped directory joined with the part of the url after the first
double slash and the .log suffix; it is opened exactly once and the
last event on it is a close, on every ending of the scan, be it a
launch failure, the duplicate-start early return, or a normal exit of
either status. -/
theorem C9_logfile_amended (d url auth : Str) (env : ScanEnv) (b : Buckets)
    (hA : (pySplit dslash url)[1]? = some auth) :
    (check_url_security d url env b).logName =
      logfile_directory d ++ ('/' :: auth) ++ dotLog ∧
    (check_url_security d url env b).events.head? =
      some (FileEvent.opened (logfile_directory d ++ ('/' :: auth) ++ dotLog)) ∧
    ((check_url_security d url env b).events.filter isOpenEv).length = 1 ∧
    (check_url_security d url env b).events.getLast? = some FileEvent.closed := by
  by_cases hL : env.launchOk = false
  · simp [check_url_security, hA, hL, isOpenEv, List.filter_cons]
  · have hL1 : env.launchOk = true := by simpa using hL
    cases hS : scanLoop auth env.outLines initState with
    | mk st fl =>
      cases fl
      · by_cases he : env.exitCode = 0
        · simp [check_url_security, hA, hL1, hS, he, isOpenEv, List.filter_append,
            List.filter_cons, filter_isOpenEv_map_wrote, List.getLast?_concat,
            List.cons_append, getLast?_cons_append_closed, getLast?_cons_append_closed2]
        · simp [check_url_security, hA, hL1, hS, he, isOpenEv, List.filter_append,
            List.filter_cons, filter_isOpenEv_map_wrote, List.getLast?_concat,
            List.cons_append, getLast?_cons_append_closed, getLast?_cons_append_closed2]
      · simp [check_url_security, hA, hL1, hS, isOpenEv, List.filter_append,
          List.filter_cons, filter_isOpenEv_map_wrote, List.getLast?_concat,
          List.cons_append, getLast?_cons_append_closed, getLast?_cons_append_closed2]

/-- C9, witness: a concrete scan opens and closes its log file. -/
theorem C9_logfile_witness :
    (check_url_security "2024-03-01".toList "https://h9.example".toList
      ⟨true, [], 0⟩ emptyBuckets).events.getLast? = some FileEvent.closed :=
  (C9_logfile_amended "2024-03-01".toList "https://h9.example".toList
    "h9.example".toList ⟨true, [], 0⟩ emptyBuckets (by decide)).2.2.2

/-- C5, counterexample: the claim says every line is escape-stripped
before being inspected for the markers and that no escape bytes reach
any extracted field; in the code a grade followed by a non-colour CSI
sequence keeps the escape in the extracted field, because extraction
reads the raw line and removes only colour sequences, and a Grade cap
reasons marker torn apart by a colour sequence is missed entirely,
because that inspection reads the raw line. -/
theorem C5_escape_stripping_counterexample :
    ('\x1b' ∈ (scanStep "h5.example".toList initState
      "Overall Grade A+\x1b[2K".toList).1.overall_grade) ∧
    listContains gcrStr (stripCSI "Grade cap\x1b[1m reasons X".toList) = true ∧
    (scanStep "h5.example".toList initState
      "Grade cap\x1b[1m reasons X".toList).1.grade_cap_reasons = [] := by
  refine ⟨by decide, by decide, by decide⟩

/-- C5, amended: every line is stripped of CSI escape sequences
before being written to the per-URL log, and a line carrying an ANSI
colour escape around Overall Grade A+ still yields the extracted
grade exactly A+, the colour codes being removed from the extracted
field; but the field is cut from the raw line and only colour
sequences are removed from it, and the start, Grade cap reasons and
Grade warning markers are matched against the raw line. -/
theorem C5_escape_stripping_amended :
    (∀ (auth : Str) (st : ParseState) (line : Str),
      (scanStep auth st line).1.log = st.log ++ [stripCSI line]) ∧
    (scanStep "h5.example".toList initState
      "\x1b[32m Overall Grade A+\x1b[0m".toList).1.overall_grade = "A+".toList := by
  constructor
  · intro auth st line
    simp only [scanStep]
    repeat' split
    all_goals rfl
  · decide

/-- The three case predicates partition every input list. -/
lemma filter_partition_length (L : List UrlCase) :
    (L.filter isInvalidCase).length + (L.filter isFailedCase).length +
      (L.filter isSuccessCase).length = L.length := by
  induction L with
  | nil => rfl
  | cons c t ih =>
    cases hv : c.validOk <;> cases he : c.env.exitCode == 0 <;>
      simp [List.filter_cons, isInvalidCase, isFailedCase, isSuccessCase, hv, he] <;>
      omega

/-- When every valid url of the lane scans to completion, the lane
does not crash and each table ends as its start value extended by the
rows of exactly its cases, in input order. -/
lemma thread_work_characterization (d : Str) (L : List UrlCase)
    (h : ∀ c ∈ L, c.validOk = true → scanCompleted c = true) :
    ∀ b : Buckets,
      (thread_work d L b).2 = false ∧
      (thread_work d L b).1.invalid_url =
        b.invalid_url ++ (L.filter isInvalidCase).map (fun c => (c.url, statusInvalid)) ∧
      (thread_work d L b).1.security_check_failed =
        b.security_check_failed ++ (L.filter isFailedCase).map (fun c => (c.url, c.url)) ∧
      (thread_work d L b).1.security_check_successful =
        b.security_check_successful ++
          (L.filter isSuccessCase).map
            (fun c => (c.url, statusSuccess, gradeOf c, capOf c, warnOf c)) := by
  induction L with
  | nil => intro b; simp [thread_work]
  | cons c t ih =>
    have ht : ∀ x ∈ t, x.validOk = true → scanCompleted x = true := by
      intro x hx
      exact h x (List.mem_cons_of_mem _ hx)
    have iht := ih ht
    intro b
    cases hv : c.validOk with
    | false =>
      have hstep : thread_work d (c :: t) b = thread_work d t
          { b with invalid_url := b.invalid_url ++ [(c.url, statusInvalid)] } := by
        simp [thread_work, check_url_validity, hv]
      obtain ⟨i1, i2, i3, i4⟩ :=
        iht { b with invalid_url := b.invalid_url ++ [(c.url, statusInvalid)] }
      rw [hstep]
      refine ⟨i1, ?_, ?_, ?_⟩
      · rw [i2]
        simp [List.filter_cons, isInvalidCase, hv, List.append_assoc]
      · rw [i3]
        simp [List.filter_cons, isFailedCase, hv]
      · rw [i4]
        simp [List.filter_cons, isSuccessCase, hv]
    | true =>
      have hcc := h c (List.mem_cons_self c t) hv
      cases hA : (pySplit dslash c.url)[1]? with
      | none => simp [scanCompleted, hA] at hcc
      | some auth =>
        have hcc2 : c.env.launchOk = true ∧
            (scanLoop auth c.env.outLines initState).2 = false := by
          simpa [scanCompleted, hA] using hcc
        obtain ⟨hL, hE⟩ := hcc2
        cases hS : scanLoop auth c.env.outLines initState with
        | mk st fl =>
          rw [hS] at hE
          simp only [Prod.snd] at hE
          subst hE
          have hauth : authD c.url = auth := by simp [authD, hA]
          have hg : gradeOf c = st.overall_grade := by simp [gradeOf, hauth, hS]
          have hcp : capOf c = st.grade_cap_reasons := by simp [capOf, hauth, hS]
          have hw : warnOf c = st.grade_warning := by simp [warnOf, hauth, hS]
          by_cases he : c.env.exitCode = 0
          · have hstep : thread_work d (c :: t) b = thread_work d t
                { b with security_check_successful := b.security_check_successful ++
                  [(c.url, statusSuccess, st.overall_grade, st.grade_cap_reasons,
                    st.grade_warning)] } := by
              simp [thread_work, check_url_validity, hv, check_url_security,
                hA, hL, hS, he]
            obtain ⟨i1, i2, i3, i4⟩ := iht
              { b with security_check_successful := b.security_check_successful ++
                [(c.url, statusSuccess, st.overall_grade, st.grade_cap_reasons,
                  st.grade_warning)] }
            rw [hstep]
            refine ⟨i1, ?_, ?_, ?_⟩
            · rw [i2]
              simp [List.filter_cons, isInvalidCase, hv]
            · rw [i3]
              simp [List.filter_cons, isFailedCase, hv, he]
            · rw [i4]
              simp [List.filter_cons, isSuccessCase, hv, he, hg, hcp, hw,
                List.append_assoc]
          · have hstep : thread_work d (c :: t) b = thread_work d t
                { b with security_check_failed := b.security_check_failed ++
                  [(c.url, c.url)] } := by
              simp [thread_work, check_url_validity, hv, check_url_security,
                hA, hL, hS, he]
            obtain ⟨i1, i2, i3, i4⟩ := iht
              { b with security_check_failed := b.security_check_failed ++
                [(c.url, c.url)] }
            rw [hstep]
            refine ⟨i1, ?_, ?_, ?_⟩
            · rw [i2]
              simp [List.filter_cons, isInvalidCase, hv]
            · rw [i3]
              simp [List.filter_cons, isFailedCase, hv, he, List.append_assoc]
            · rw [i4]
              simp [List.filter_cons, isSuccessCase, hv, he]

/-- C1, counterexample: the claim says the three tables always cover
every input url; a run over two urls whose scans abort, one through
the duplicate-start early return and one through an uncaught launch
exception, ends with all tables empty. -/
theorem C1_coverage_counterexample :
    countBuckets (thread_work "2024-03-01".toList
      [⟨"https://x1.example".toList, true,
        ⟨true, [" Start x1.example one".toList, " Start x1.example two".toList], 0⟩⟩,
       ⟨"https://y1.example".toList, true, ⟨false, [], 0⟩⟩]
      emptyBuckets).1 = 0 ∧
    countBuckets (thread_work "2024-03-01".toList
      [⟨"https://x1.example".toList, true,
        ⟨true, [" Start x1.example one".toList, " Start x1.example two".toList], 0⟩⟩,
       ⟨"https://y1.example".toList, true, ⟨false, [], 0⟩⟩]
      emptyBuckets).1 ≠ 2 := by
  refine ⟨by decide, by decide⟩

/-- C1, amended: in a run in which every valid url scans to
completion, with no launch exception and no duplicate-start early
return, and the input urls are pairwise distinct, the lane finishes,
the three tables together hold exactly one row per input url, and no
url appears in more than one table. -/
theorem C1_coverage_amended (d : Str) (L : List UrlCase)
    (h : ∀ c ∈ L, c.validOk = true → scanCompleted c = true)
    (hnd : (L.map UrlCase.url).Nodup) :
    (thread_work d L emptyBuckets).2 = false ∧
    countBuckets (thread_work d L emptyBuckets).1 = L.length ∧
    (∀ u : Str,
      ¬(u ∈ (thread_work d L emptyBuckets).1.invalid_url.map Prod.fst ∧
        u ∈ (thread_work d L emptyBuckets).1.security_check_failed.map Prod.fst) ∧
      ¬(u ∈ (thread_work d L emptyBuckets).1.invalid_url.map Prod.fst ∧
        u ∈ (thread_work d L emptyBuckets).1.security_check_successful.map Prod.fst) ∧
      ¬(u ∈ (thread_work d L emptyBuckets).1.security_check_failed.map Prod.fst ∧
        u ∈ (thread_work d L emptyBuckets).1.security_check_successful.map Prod.fst)) := by
  obtain ⟨h1, h2, h3, h4⟩ := thread_work_characterization d L h emptyBuckets
  refine ⟨h1, ?_, ?_⟩
  · rw [countBuckets, h2, h3, h4]
    simp only [emptyBuckets, List.nil_append, List.length_map]
    exact filter_partition_length L
  · intro u
    rw [h2, h3, h4]
    simp only [emptyBuckets, List.nil_append, List.map_map]
    refine ⟨?_, ?_, ?_⟩
    · rintro ⟨hu1, hu2⟩
      rcases List.mem_map.mp hu1 with ⟨c1, hc1f, he1⟩
      rcases List.mem_map.mp hu2 with ⟨c2, hc2f, he2⟩
      obtain ⟨hc1L, hp1⟩ := List.mem_filter.mp hc1f
      obtain ⟨hc2L, hp2⟩ := List.mem_filter.mp hc2f
      simp only [Function.comp] at he1 he2
      have hcc : c1 = c2 :=
        List.inj_on_of_nodup_map hnd hc1L hc2L (he1.trans he2.symm)
      subst hcc
      simp only [isInvalidCase, Bool.not_eq_true'] at hp1
      simp [isFailedCase, hp1] at hp2
    · rintro ⟨hu1, hu2⟩
      rcases List.mem_map.mp hu1 with ⟨c1, hc1f, he1⟩
      rcases List.mem_map.mp hu2 with ⟨c2, hc2f, he2⟩
      obtain ⟨hc1L, hp1⟩ := List.mem_filter.mp hc1f
      obtain ⟨hc2L, hp2⟩ := List.mem_filter.mp hc2f
      simp only [Function.comp] at he1 he2
      have hcc : c1 = c2 :=
        List.inj_on_of_nodup_map hnd hc1L hc2L (he1.trans he2.symm)
      subst hcc
      simp only [isInvalidCase, Bool.not_eq_true'] at hp1
      simp [isSuccessCase, hp1] at hp2
    · rintro ⟨hu1, hu2⟩
      rcases List.mem_map.mp hu1 with ⟨c1, hc1f, he1⟩
      rcases List.mem_map.mp hu2 with ⟨c2, hc2f, he2⟩
      obtain ⟨hc1L, hp1⟩ := List.mem_filter.mp hc1f
      obtain ⟨hc2L, hp2⟩ := List.mem_filter.mp hc2f
      simp only [Function.comp] at he1 he2
      have hcc : c1 = c2 :=
        List.inj_on_of_nodup_map hnd hc1L hc2L (he1.trans he2.symm)
      subst hcc
      simp only [isFailedCase, Bool.and_eq_true, Bool.not_eq_true'] at hp1
      simp [isSuccessCase, hp1.1, hp1.2] at hp2

/-- C1, witness: a run over one url that scans successfully and one
invalid url accounts for both. -/
theorem C1_coverage_witness :
    countBuckets (thread_work "2024-03-01".toList
      [⟨"https://ok1.example".toList, true, ⟨true, [], 0⟩⟩,
       ⟨"bad url".toList, false, ⟨true, [], 0⟩⟩] emptyBuckets).1 =
      ([⟨"https://ok1.example".toList, true, ⟨true, [], (0 : Int)⟩⟩,
        ⟨"bad url".toList, false, ⟨true, [], (0 : Int)⟩⟩] : List UrlCase).length :=
  (C1_coverage_amended "2024-03-01".toList
    [⟨"https://ok1.example".toList, true, ⟨true, [], 0⟩⟩,
     ⟨"bad url".toList, false, ⟨true, [], 0⟩⟩]
    (by decide) (by decide)).2.1

end SecCheck
